import Mathlib

/-!
Shallow embedding of the pismo-task ledger services.

Accounts and transactions live in a relational store; we model the store as
explicit lists of rows.  Monetary amounts are `DECIMAL(15,2)` in the database;
a value of that type is an exact integer count of hundredths, so amounts and
balances are modelled as `Int` (in units of one hundredth), whose addition and
order agree with the decimal column's.  Timestamps are `BIGINT`, modelled as
`Int`.  The gRPC services are pure state-transformers here: the generated
UUID and the current timestamp are passed in as oracle arguments, and every
response carries its error in a string field (empty string means success),
exactly as the Go proto structs do.

Sources embedded:
  internal/transaction (Service.CreateTransaction, Service.GetTransaction,
    Service.GetTransactionHistory, Service.ProcessPayment,
    ConvertCreateTransactionRequestToTransaction)
  internal/account (Service.GetAccount, Service.UpdateAccount)
-/

namespace Pismo

/-- A row of the `accounts` table. -/
structure Account where
  id : String
  documentNumber : String
  accountType : String
  balance : Int
  createdAt : Int
  updatedAt : Int
deriving DecidableEq

/-- A row of the `transactions` table. -/
structure Transaction where
  id : String
  accountId : String
  operationType : String
  amount : Int
  description : String
  createdAt : Int
  status : String
deriving DecidableEq

/-- The relational store: the `accounts` and `transactions` tables. -/
structure DBState where
  accounts : List Account
  transactions : List Transaction
deriving DecidableEq

/-- Query `SELECT ... FROM accounts WHERE id = $1` — `id` is the primary key, so the
query returns at most one row; `find?` returns the first match. -/
def findAccount (st : DBState) (id : String) : Option Account :=
  st.accounts.find? (fun a => a.id == id)

/-- Row-level effect of
`UPDATE accounts SET balance = balance + $1, updated_at = $2 WHERE id = $3`. -/
def applyBalance (accountId : String) (delta : Int) (now : Int) (a : Account) : Account :=
  if a.id = accountId then { a with balance := a.balance + delta, updatedAt := now } else a

/-- Statement `UPDATE accounts SET balance = balance + $1, updated_at = $2 WHERE id = $3`. -/
def updateBalance (st : DBState) (accountId : String) (delta : Int) (now : Int) : DBState :=
  { st with accounts := st.accounts.map (applyBalance accountId delta now) }

/-- Statement `INSERT INTO transactions ... VALUES ...`. -/
def insertTransaction (st : DBState) (t : Transaction) : DBState :=
  { st with transactions := st.transactions ++ [t] }

/-- The `validOperations` set in `Service.CreateTransaction`. -/
def validOperation (op : String) : Bool :=
  op == "CASH_PURCHASE" || op == "INSTALLMENT_PURCHASE" || op == "WITHDRAWAL" || op == "PAYMENT"

/-- Proto message `CreateTransactionRequest`. -/
structure CreateTransactionRequest where
  accountId : String
  operationType : String
  amount : Int
  description : String
deriving DecidableEq

/-- Proto message `CreateTransactionResponse`; `transaction` is a nullable
pointer, `error` is a proto string whose empty value means success. -/
structure CreateTransactionResponse where
  transaction : Option Transaction
  error : String
deriving DecidableEq

/-- Function `ConvertCreateTransactionRequestToTransaction` (internal/transaction/proto_db.go):
builds the row with the caller-supplied fields, `created_at = now` and
status `PENDING`; the ID is filled in by the caller. -/
def ConvertCreateTransactionRequestToTransaction
    (req : CreateTransactionRequest) (now : Int) : Transaction :=
  { id := ""
    accountId := req.accountId
    operationType := req.operationType
    amount := req.amount
    description := req.description
    createdAt := now
    status := "PENDING" }

/-- The sign normalization of the debit branch of `Service.CreateTransaction`:
`if amount >= 0 { amount = -amount }`. -/
def normalizeDebit (q : Int) : Int :=
  if 0 ≤ q then -q else q

/-- Method `Service.CreateTransaction` (internal/transaction):
validates the request, looks up the account, branches on PAYMENT versus
debit, updates the balance and inserts the COMPLETED row.  The generated
UUID `newId` and the current timestamp `now` are oracle inputs.  Returns
the response together with the post-state of the store. -/
def CreateTransaction (st : DBState) (req : CreateTransactionRequest)
    (newId : String) (now : Int) : CreateTransactionResponse × DBState :=
  if req.accountId = "" ∨ req.operationType = "" then
    ({ transaction := none, error := "missing required fields" }, st)
  else if ¬ validOperation req.operationType then
    ({ transaction := none, error := "invalid operation type" }, st)
  else
    match findAccount st req.accountId with
    | none => ({ transaction := none, error := "account not found" }, st)
    | some account =>
      let dbTransaction := { ConvertCreateTransactionRequestToTransaction req now with
                             id := newId }
      if req.operationType = "PAYMENT" then
        if req.amount ≤ 0 then
          ({ transaction := none, error := "payment amount must be positive" }, st)
        else
          let st1 := updateBalance st req.accountId req.amount now
          let tx := { dbTransaction with status := "COMPLETED" }
          let st2 := insertTransaction st1 tx
          ({ transaction := some tx, error := "" }, st2)
      else
        let amount := normalizeDebit req.amount
        if account.balance + amount < 0 then
          ({ transaction := none, error := "insufficient balance" }, st)
        else
          let st1 := updateBalance st req.accountId amount now
          let tx := { dbTransaction with amount := amount, status := "COMPLETED" }
          let st2 := insertTransaction st1 tx
          ({ transaction := some tx, error := "" }, st2)

/-- Proto message `GetTransactionRequest`. -/
structure GetTransactionRequest where
  id : String
deriving DecidableEq

/-- Proto message `GetTransactionResponse`. -/
structure GetTransactionResponse where
  transaction : Option Transaction
  error : String
deriving DecidableEq

/-- Method `Service.GetTransaction` (internal/transaction):
`SELECT ... FROM transactions WHERE id = $1`. -/
def GetTransaction (st : DBState) (req : GetTransactionRequest) : GetTransactionResponse :=
  if req.id = "" then
    { transaction := none, error := "id required" }
  else
    match st.transactions.find? (fun t => t.id == req.id) with
    | none => { transaction := none, error := "not found" }
    | some t => { transaction := some t, error := "" }

/-- Proto message `GetTransactionHistoryRequest` (`limit` and `offset` are int32). -/
structure GetTransactionHistoryRequest where
  accountId : String
  limit : Int
  offset : Int
deriving DecidableEq

/-- Proto message `GetTransactionHistoryResponse`. -/
structure GetTransactionHistoryResponse where
  transactions : List Transaction
  total : Int
  error : String
deriving DecidableEq

/-- The comparison used by
`ORDER BY created_at DESC`: row `a` may come before row `b`
when `b.created_at ≤ a.created_at`. -/
def createdAtDesc (a b : Transaction) : Bool :=
  decide (b.createdAt ≤ a.createdAt)

/-- Query `SELECT ... FROM transactions WHERE account_id = $1 ORDER BY created_at DESC`:
the account's rows sorted by `created_at` descending. -/
def transactionsByAccountDesc (st : DBState) (accountId : String) : List Transaction :=
  (st.transactions.filter (fun t => t.accountId == accountId)).mergeSort createdAtDesc

/-- Method `Service.GetTransactionHistory` (internal/transaction):
clamps limit and offset, runs the unbounded count query and the
limit/offset page query. -/
def GetTransactionHistory (st : DBState) (req : GetTransactionHistoryRequest) :
    GetTransactionHistoryResponse :=
  if req.accountId = "" then
    { transactions := [], total := 0, error := "account_id required" }
  else
    let limit := if req.limit ≤ 0 ∨ 100 < req.limit then 50 else req.limit
    let offset := if req.offset < 0 then 0 else req.offset
    let total : Int :=
      ((st.transactions.filter (fun t => t.accountId == req.accountId)).length : Int)
    let rows := ((transactionsByAccountDesc st req.accountId).drop offset.toNat).take limit.toNat
    { transactions := rows, total := total, error := "" }

/-- Proto message `ProcessPaymentRequest`. -/
structure ProcessPaymentRequest where
  accountId : String
  amount : Int
  description : String
deriving DecidableEq

/-- Proto message `ProcessPaymentResponse`. -/
structure ProcessPaymentResponse where
  transaction : Option Transaction
  error : String
deriving DecidableEq

/-- Method `Service.ProcessPayment` (internal/transaction):
builds a `CreateTransactionRequest` with operation type `PAYMENT`,
delegates to `CreateTransaction`, and copies transaction and error
into the payment response.  (The Go-level error return of
`CreateTransaction` is always nil, so the `err != nil` branch is dead.) -/
def ProcessPayment (st : DBState) (req : ProcessPaymentRequest)
    (newId : String) (now : Int) : ProcessPaymentResponse × DBState :=
  let createReq : CreateTransactionRequest :=
    { accountId := req.accountId
      operationType := "PAYMENT"
      amount := req.amount
      description := req.description }
  let r := CreateTransaction st createReq newId now
  ({ transaction := r.1.transaction, error := r.1.error }, r.2)

/-- Proto message `GetAccountRequest`. -/
structure GetAccountRequest where
  id : String
deriving DecidableEq

/-- Proto message `GetAccountResponse`. -/
structure GetAccountResponse where
  account : Option Account
  error : String
deriving DecidableEq

/-- Method `Service.GetAccount` (internal/account):
`SELECT ... FROM accounts WHERE id = $1`, `not found` on no rows. -/
def GetAccount (st : DBState) (req : GetAccountRequest) : GetAccountResponse :=
  if req.id = "" then
    { account := none, error := "id required" }
  else
    match findAccount st req.id with
    | none => { account := none, error := "not found" }
    | some a => { account := some a, error := "" }

/-- Proto message `UpdateAccountRequest`. -/
structure UpdateAccountRequest where
  id : String
  documentNumber : String
  accountType : String
deriving DecidableEq

/-- Proto message `UpdateAccountResponse`. -/
structure UpdateAccountResponse where
  account : Option Account
  error : String
deriving DecidableEq

/-- Row-level effect of the partial update
`SET document_number = COALESCE(NULLIF($2, ''), document_number),
account_type = COALESCE(NULLIF($3, ''), account_type), updated_at = $4
WHERE id = $1`. -/
def applyAccountUpdate (req : UpdateAccountRequest) (now : Int) (a : Account) : Account :=
  if a.id = req.id then
    { a with
      documentNumber := if req.documentNumber = "" then a.documentNumber else req.documentNumber
      accountType := if req.accountType = "" then a.accountType else req.accountType
      updatedAt := now }
  else a

/-- Method `Service.UpdateAccount` (internal/account):
runs the partial UPDATE (rows-affected is not inspected), then re-reads via
`GetAccount` and returns a response carrying only `resp.Account` — the
`Error` field of the re-read is not copied into the update response. -/
def UpdateAccount (st : DBState) (req : UpdateAccountRequest) (now : Int) :
    UpdateAccountResponse × DBState :=
  if req.id = "" then
    ({ account := none, error := "id required" }, st)
  else
    let st' : DBState := { st with accounts := st.accounts.map (applyAccountUpdate req now) }
    let resp := GetAccount st' { id := req.id }
    ({ account := resp.account, error := "" }, st')

/-- The balance column of the account row with the given id, as read by
`SELECT balance FROM accounts WHERE id = $1`. -/
def accountBalance (st : DBState) (id : String) : Option Int :=
  (findAccount st id).map (fun a => a.balance)

/-! ### Helper lemmas about the store operations -/

theorem applyBalance_id (accountId : String) (δ : Int) (now : Int) (a : Account) :
    (applyBalance accountId δ now a).id = a.id := by
  unfold applyBalance
  split <;> rfl

theorem find?_map_applyBalance (id : String) (δ : Int) (now : Int) :
    ∀ (l : List Account) (acct : Account),
      l.find? (fun a => a.id == id) = some acct →
      (l.map (applyBalance id δ now)).find? (fun a => a.id == id)
        = some { acct with balance := acct.balance + δ, updatedAt := now }
  | [], acct, h => by simp [List.find?] at h
  | x :: xs, acct, h => by
    by_cases hx : x.id = id
    · simp only [List.find?, hx, beq_self_eq_true] at h
      cases h
      simp [List.find?, applyBalance, hx]
    · have hbx : (x.id == id) = false := by simp [hx]
      simp only [List.find?, hbx] at h
      have hap : applyBalance id δ now x = x := by
        unfold applyBalance
        exact if_neg hx
      simp only [List.map_cons, List.find?, hap, hbx]
      exact find?_map_applyBalance id δ now xs acct h

/-- After the balance-update statement, the looked-up row is the old row with
`balance + δ` and refreshed `updated_at`. -/
theorem findAccount_updateBalance (st : DBState) (id : String) (δ : Int) (now : Int)
    (acct : Account) (h : findAccount st id = some acct) :
    findAccount (updateBalance st id δ now) id
      = some { acct with balance := acct.balance + δ, updatedAt := now } :=
  find?_map_applyBalance id δ now st.accounts acct h

theorem updateBalance_transactions (st : DBState) (id : String) (δ : Int) (now : Int) :
    (updateBalance st id δ now).transactions = st.transactions := rfl

theorem insertTransaction_transactions (st : DBState) (t : Transaction) :
    (insertTransaction st t).transactions = st.transactions ++ [t] := rfl

theorem normalizeDebit_eq_neg_abs (q : Int) : normalizeDebit q = -|q| := by
  unfold normalizeDebit
  split
  · rw [abs_of_nonneg (by assumption)]
  · rw [abs_of_neg (lt_of_not_le (by assumption)), neg_neg]

/-- The three operation types of the debit branch. -/
def debitOperation (op : String) : Prop :=
  op = "CASH_PURCHASE" ∨ op = "INSTALLMENT_PURCHASE" ∨ op = "WITHDRAWAL"

theorem debitOperation_facts {op : String} (h : debitOperation op) :
    validOperation op = true ∧ op ≠ "PAYMENT" ∧ op ≠ "" := by
  rcases h with h | h | h <;> subst h <;> exact ⟨rfl, by decide, by decide⟩

/-- Shape of a successful PAYMENT call: credit the balance by the raw amount
and append the COMPLETED row carrying the unchanged request amount. -/
theorem CreateTransaction_payment_success (st : DBState) (req : CreateTransactionRequest)
    (newId : String) (now : Int) (account : Account)
    (ha : req.accountId ≠ "") (hop : req.operationType = "PAYMENT")
    (hfind : findAccount st req.accountId = some account)
    (hpos : 0 < req.amount) :
    CreateTransaction st req newId now =
      ({ transaction := some { ConvertCreateTransactionRequestToTransaction req now with
                               id := newId, status := "COMPLETED" }
         error := "" },
       insertTransaction (updateBalance st req.accountId req.amount now)
         { ConvertCreateTransactionRequestToTransaction req now with
           id := newId, status := "COMPLETED" }) := by
  have h1 : ¬ (req.accountId = "" ∨ req.operationType = "") := by
    rintro (h | h)
    · exact ha h
    · rw [hop] at h
      exact absurd h (by decide)
  unfold CreateTransaction
  rw [if_neg h1]
  simp [hop, validOperation, hfind, hpos.not_le]

/-- Shape of a PAYMENT call with non-positive amount on an existing account:
rejected, state unchanged. -/
theorem CreateTransaction_payment_nonpositive (st : DBState) (req : CreateTransactionRequest)
    (newId : String) (now : Int) (account : Account)
    (ha : req.accountId ≠ "") (hop : req.operationType = "PAYMENT")
    (hfind : findAccount st req.accountId = some account)
    (hnp : req.amount ≤ 0) :
    CreateTransaction st req newId now =
      ({ transaction := none, error := "payment amount must be positive" }, st) := by
  have h1 : ¬ (req.accountId = "" ∨ req.operationType = "") := by
    rintro (h | h)
    · exact ha h
    · rw [hop] at h
      exact absurd h (by decide)
  unfold CreateTransaction
  rw [if_neg h1]
  simp [hop, validOperation, hfind, hnp]

/-- Shape of a successful debit call: debit the balance by the normalized
(negated-if-nonnegative) amount and append the COMPLETED row carrying it. -/
theorem CreateTransaction_debit_success (st : DBState) (req : CreateTransactionRequest)
    (newId : String) (now : Int) (account : Account)
    (ha : req.accountId ≠ "") (hop : debitOperation req.operationType)
    (hfind : findAccount st req.accountId = some account)
    (hsuff : 0 ≤ account.balance + normalizeDebit req.amount) :
    CreateTransaction st req newId now =
      ({ transaction := some { ConvertCreateTransactionRequestToTransaction req now with
                               id := newId, amount := normalizeDebit req.amount
                               status := "COMPLETED" }
         error := "" },
       insertTransaction (updateBalance st req.accountId (normalizeDebit req.amount) now)
         { ConvertCreateTransactionRequestToTransaction req now with
           id := newId, amount := normalizeDebit req.amount, status := "COMPLETED" }) := by
  obtain ⟨hvalid, hnp, hne⟩ := debitOperation_facts hop
  have h1 : ¬ (req.accountId = "" ∨ req.operationType = "") := by
    rintro (h | h)
    · exact ha h
    · exact hne h
  unfold CreateTransaction
  rw [if_neg h1]
  simp [hvalid, hfind, hnp, hsuff.not_lt]

/-- Shape of a debit call that fails the sufficiency check: rejected with
`insufficient balance`, state unchanged. -/
theorem CreateTransaction_debit_insufficient (st : DBState) (req : CreateTransactionRequest)
    (newId : String) (now : Int) (account : Account)
    (ha : req.accountId ≠ "") (hop : debitOperation req.operationType)
    (hfind : findAccount st req.accountId = some account)
    (hlt : account.balance + normalizeDebit req.amount < 0) :
    CreateTransaction st req newId now =
      ({ transaction := none, error := "insufficient balance" }, st) := by
  obtain ⟨hvalid, hnp, hne⟩ := debitOperation_facts hop
  have h1 : ¬ (req.accountId = "" ∨ req.operationType = "") := by
    rintro (h | h)
    · exact ha h
    · exact hne h
  unfold CreateTransaction
  rw [if_neg h1]
  simp [hvalid, hfind, hnp, hlt]

theorem validOperation_cases {op : String} (h : validOperation op = true) :
    debitOperation op ∨ op = "PAYMENT" := by
  simp only [validOperation, Bool.or_eq_true, beq_iff_eq] at h
  unfold debitOperation
  tauto

/-! ### Claims -/

/-- C1: every successful `CreateTransaction` call — PAYMENT as well as the
three debit types — appends exactly one transaction row, with status
COMPLETED, the (possibly sign-normalized) amount, the newly generated
identifier and the current timestamp, and returns that persisted row. -/
theorem claim1_create_success_persists_one_completed_row
    (st : DBState) (req : CreateTransactionRequest) (newId : String) (now : Int)
    (h : (CreateTransaction st req newId now).1.error = "") :
    ∃ tx : Transaction,
      (CreateTransaction st req newId now).1.transaction = some tx ∧
      (CreateTransaction st req newId now).2.transactions = st.transactions ++ [tx] ∧
      tx.status = "COMPLETED" ∧ tx.id = newId ∧ tx.createdAt = now ∧
      tx.accountId = req.accountId ∧ tx.operationType = req.operationType ∧
      tx.description = req.description ∧
      tx.amount = (if req.operationType = "PAYMENT" then req.amount
                   else normalizeDebit req.amount) := by
  by_cases h1 : req.accountId = "" ∨ req.operationType = ""
  · unfold CreateTransaction at h
    rw [if_pos h1] at h
    simp at h
  · push_neg at h1
    obtain ⟨ha, hopne⟩ := h1
    by_cases h2 : validOperation req.operationType = true
    · cases hfind : findAccount st req.accountId with
      | none =>
        unfold CreateTransaction at h
        rw [if_neg (by tauto)] at h
        simp [h2, hfind] at h
      | some account =>
        rcases validOperation_cases h2 with hdeb | hpay
        · obtain ⟨hv, hnp, hne⟩ := debitOperation_facts hdeb
          by_cases hlt : account.balance + normalizeDebit req.amount < 0
          · rw [CreateTransaction_debit_insufficient st req newId now account ha hdeb
              hfind hlt] at h
            simp at h
          · push_neg at hlt
            rw [CreateTransaction_debit_success st req newId now account ha hdeb hfind hlt]
            refine ⟨_, rfl, rfl, rfl, rfl, rfl, rfl, rfl, rfl, ?_⟩
            simp [hnp, ConvertCreateTransactionRequestToTransaction]
        · by_cases hle : req.amount ≤ 0
          · rw [CreateTransaction_payment_nonpositive st req newId now account ha hpay
              hfind hle] at h
            simp at h
          · push_neg at hle
            rw [CreateTransaction_payment_success st req newId now account ha hpay hfind hle]
            refine ⟨_, rfl, rfl, rfl, rfl, rfl, rfl, rfl, rfl, ?_⟩
            simp [hpay, ConvertCreateTransactionRequestToTransaction]
    · unfold CreateTransaction at h
      rw [if_neg (by tauto)] at h
      simp [h2] at h

theorem accountBalance_insertTransaction (st : DBState) (t : Transaction) (id : String) :
    accountBalance (insertTransaction st t) id = accountBalance st id := rfl

theorem accountBalance_updateBalance (st : DBState) (id : String) (δ now : Int)
    (acct : Account) (h : findAccount st id = some acct) :
    accountBalance (updateBalance st id δ now) id = some (acct.balance + δ) := by
  unfold accountBalance
  rw [findAccount_updateBalance st id δ now acct h]
  rfl

/-- Concrete account, store and requests used by witnesses and counterexamples. -/
def witnessAccount : Account :=
  { id := "acct-1", documentNumber := "12345678901", accountType := "CHECKING",
    balance := 10000, createdAt := 1, updatedAt := 1 }

def witnessState : DBState := { accounts := [witnessAccount], transactions := [] }

def witnessPayReq : CreateTransactionRequest :=
  { accountId := "acct-1", operationType := "PAYMENT", amount := 500, description := "w" }

def witnessDebitReq : CreateTransactionRequest :=
  { accountId := "acct-1", operationType := "CASH_PURCHASE", amount := 30, description := "w" }

def witnessZeroDebitReq : CreateTransactionRequest :=
  { accountId := "acct-1", operationType := "CASH_PURCHASE", amount := 0, description := "w" }

/-- Witness for C1 at a concrete PAYMENT call. -/
theorem claim1_witness :
    (CreateTransaction witnessState witnessPayReq "tx-1" 9).1.error = "" ∧
    ∃ tx : Transaction,
      (CreateTransaction witnessState witnessPayReq "tx-1" 9).1.transaction = some tx ∧
      (CreateTransaction witnessState witnessPayReq "tx-1" 9).2.transactions
        = witnessState.transactions ++ [tx] ∧
      tx.status = "COMPLETED" ∧ tx.id = "tx-1" ∧ tx.createdAt = 9 ∧
      tx.accountId = witnessPayReq.accountId ∧
      tx.operationType = witnessPayReq.operationType ∧
      tx.description = witnessPayReq.description ∧
      tx.amount = (if witnessPayReq.operationType = "PAYMENT" then witnessPayReq.amount
                   else normalizeDebit witnessPayReq.amount) :=
  ⟨by decide,
   claim1_create_success_persists_one_completed_row witnessState witnessPayReq "tx-1" 9
     (by decide)⟩

/-- C2 as stated is refuted at caller amount 0: the debit call succeeds
(the balance 10000 is at least |0|) yet the stored and returned amount is 0,
which is not negative. -/
theorem claim2_counterexample :
    (CreateTransaction witnessState witnessZeroDebitReq "tx-2" 9).1.error = "" ∧
    ((CreateTransaction witnessState witnessZeroDebitReq "tx-2" 9).1.transaction.map
        Transaction.amount) = some 0 ∧
    ¬ ((0 : Int) < 0) := by decide

/-- C2 (amended): for every debit `CreateTransaction` on an existing account
whose balance is at least |amount|, the call succeeds, the resulting balance is
the prior balance minus |amount|, and the stored and returned amount is
−|amount| — a positive input is negated, a negative input is left as-is, so the
stored amount is negative whenever the caller-supplied amount is nonzero
(a caller amount of exactly 0 is stored as 0). -/
theorem claim2_debit_success_normalizes_sign
    (st : DBState) (req : CreateTransactionRequest) (newId : String) (now : Int)
    (account : Account)
    (ha : req.accountId ≠ "") (hop : debitOperation req.operationType)
    (hfind : findAccount st req.accountId = some account)
    (hbal : |req.amount| ≤ account.balance) :
    (CreateTransaction st req newId now).1.error = "" ∧
    accountBalance (CreateTransaction st req newId now).2 req.accountId
      = some (account.balance - |req.amount|) ∧
    ((CreateTransaction st req newId now).1.transaction.map Transaction.amount)
      = some (-|req.amount|) ∧
    (req.amount ≠ 0 → -|req.amount| < 0) := by
  have hsuff : 0 ≤ account.balance + normalizeDebit req.amount := by
    rw [normalizeDebit_eq_neg_abs]
    linarith
  rw [CreateTransaction_debit_success st req newId now account ha hop hfind hsuff]
  refine ⟨rfl, ?_, ?_, ?_⟩
  · show accountBalance
      (insertTransaction (updateBalance st req.accountId (normalizeDebit req.amount) now) _)
      req.accountId = _
    rw [accountBalance_insertTransaction,
      accountBalance_updateBalance st req.accountId _ now account hfind,
      normalizeDebit_eq_neg_abs, sub_eq_add_neg]
  · show some (normalizeDebit req.amount) = _
    rw [normalizeDebit_eq_neg_abs]
  · intro h
    exact neg_lt_zero.mpr (abs_pos.mpr h)

/-- Witness for C2 (amended) at a concrete CASH_PURCHASE of 30 on balance 10000. -/
theorem claim2_witness :
    ("acct-1" ≠ "" ∧ debitOperation "CASH_PURCHASE" ∧
      findAccount witnessState "acct-1" = some witnessAccount ∧
      |witnessDebitReq.amount| ≤ witnessAccount.balance) ∧
    ((CreateTransaction witnessState witnessDebitReq "tx-3" 9).1.error = "" ∧
     accountBalance (CreateTransaction witnessState witnessDebitReq "tx-3" 9).2 "acct-1"
       = some (witnessAccount.balance - |witnessDebitReq.amount|) ∧
     ((CreateTransaction witnessState witnessDebitReq "tx-3" 9).1.transaction.map
         Transaction.amount) = some (-|witnessDebitReq.amount|) ∧
     (witnessDebitReq.amount ≠ 0 → -|witnessDebitReq.amount| < 0)) :=
  ⟨⟨by decide, Or.inl rfl, by decide, by decide⟩,
   claim2_debit_success_normalizes_sign witnessState witnessDebitReq "tx-3" 9 witnessAccount
     (by decide) (Or.inl rfl) (by decide) (by decide)⟩

/-- C3: a PAYMENT with positive amount on an existing account succeeds, credits
the balance by the amount, and stores and returns the caller-supplied amount
with its sign unchanged. -/
theorem claim3_payment_success_credits_balance
    (st : DBState) (req : CreateTransactionRequest) (newId : String) (now : Int)
    (account : Account)
    (ha : req.accountId ≠ "") (hop : req.operationType = "PAYMENT")
    (hfind : findAccount st req.accountId = some account)
    (hpos : 0 < req.amount) :
    (CreateTransaction st req newId now).1.error = "" ∧
    accountBalance (CreateTransaction st req newId now).2 req.accountId
      = some (account.balance + req.amount) ∧
    ((CreateTransaction st req newId now).1.transaction.map Transaction.amount)
      = some req.amount := by
  rw [CreateTransaction_payment_success st req newId now account ha hop hfind hpos]
  refine ⟨rfl, ?_, rfl⟩
  show accountBalance
    (insertTransaction (updateBalance st req.accountId req.amount now) _) req.accountId = _
  rw [accountBalance_insertTransaction,
    accountBalance_updateBalance st req.accountId _ now account hfind]

/-- Witness for C3 at a concrete PAYMENT of 500 on balance 10000. -/
theorem claim3_witness :
    ("acct-1" ≠ "" ∧ witnessPayReq.operationType = "PAYMENT" ∧
      findAccount witnessState "acct-1" = some witnessAccount ∧ 0 < witnessPayReq.amount) ∧
    ((CreateTransaction witnessState witnessPayReq "tx-4" 9).1.error = "" ∧
     accountBalance (CreateTransaction witnessState witnessPayReq "tx-4" 9).2 "acct-1"
       = some (witnessAccount.balance + witnessPayReq.amount) ∧
     ((CreateTransaction witnessState witnessPayReq "tx-4" 9).1.transaction.map
         Transaction.amount) = some witnessPayReq.amount) :=
  ⟨⟨by decide, by decide, by decide, by decide⟩,
   claim3_payment_success_credits_balance witnessState witnessPayReq "tx-4" 9 witnessAccount
     (by decide) (by decide) (by decide) (by decide)⟩

/-- C4: a debit whose |amount| exceeds the prior balance is rejected with
`insufficient balance`; the store is unchanged, so the balance and the
account's transaction count are unchanged. -/
theorem claim4_debit_insufficient_rejected
    (st : DBState) (req : CreateTransactionRequest) (newId : String) (now : Int)
    (account : Account)
    (ha : req.accountId ≠ "") (hop : debitOperation req.operationType)
    (hfind : findAccount st req.accountId = some account)
    (hgt : account.balance < |req.amount|) :
    (CreateTransaction st req newId now).1.error = "insufficient balance" ∧
    (CreateTransaction st req newId now).1.transaction = none ∧
    (CreateTransaction st req newId now).2 = st ∧
    accountBalance (CreateTransaction st req newId now).2 req.accountId
      = some account.balance ∧
    (CreateTransaction st req newId now).2.transactions = st.transactions := by
  have hlt : account.balance + normalizeDebit req.amount < 0 := by
    rw [normalizeDebit_eq_neg_abs]
    linarith
  rw [CreateTransaction_debit_insufficient st req newId now account ha hop hfind hlt]
  refine ⟨rfl, rfl, rfl, ?_, rfl⟩
  show accountBalance st req.accountId = some account.balance
  unfold accountBalance
  rw [hfind]
  rfl

/-- Witness for C4 at a concrete WITHDRAWAL of 20000 on balance 10000. -/
theorem claim4_witness :
    ("acct-1" ≠ "" ∧ debitOperation "WITHDRAWAL" ∧
      findAccount witnessState "acct-1" = some witnessAccount ∧
      witnessAccount.balance < |(20000 : Int)|) ∧
    ((CreateTransaction witnessState
        { accountId := "acct-1", operationType := "WITHDRAWAL", amount := 20000,
          description := "w" } "tx-5" 9).1.error = "insufficient balance" ∧
     (CreateTransaction witnessState
        { accountId := "acct-1", operationType := "WITHDRAWAL", amount := 20000,
          description := "w" } "tx-5" 9).1.transaction = none ∧
     (CreateTransaction witnessState
        { accountId := "acct-1", operationType := "WITHDRAWAL", amount := 20000,
          description := "w" } "tx-5" 9).2 = witnessState ∧
     accountBalance (CreateTransaction witnessState
        { accountId := "acct-1", operationType := "WITHDRAWAL", amount := 20000,
          description := "w" } "tx-5" 9).2 "acct-1" = some witnessAccount.balance ∧
     (CreateTransaction witnessState
        { accountId := "acct-1", operationType := "WITHDRAWAL", amount := 20000,
          description := "w" } "tx-5" 9).2.transactions = witnessState.transactions) :=
  ⟨⟨by decide, Or.inr (Or.inr rfl), by decide, by decide⟩,
   claim4_debit_insufficient_rejected witnessState
     { accountId := "acct-1", operationType := "WITHDRAWAL", amount := 20000,
       description := "w" } "tx-5" 9 witnessAccount
     (by decide) (Or.inr (Or.inr rfl)) (by decide) (by decide)⟩

/-- C5: a PAYMENT with amount ≤ 0 on an existing account is rejected with
`payment amount must be positive` and the store is unchanged. -/
theorem claim5_payment_nonpositive_rejected
    (st : DBState) (req : CreateTransactionRequest) (newId : String) (now : Int)
    (account : Account)
    (ha : req.accountId ≠ "") (hop : req.operationType = "PAYMENT")
    (hfind : findAccount st req.accountId = some account)
    (hnp : req.amount ≤ 0) :
    (CreateTransaction st req newId now).1.error = "payment amount must be positive" ∧
    (CreateTransaction st req newId now).1.transaction = none ∧
    (CreateTransaction st req newId now).2 = st ∧
    accountBalance (CreateTransaction st req newId now).2 req.accountId
      = some account.balance ∧
    (CreateTransaction st req newId now).2.transactions = st.transactions := by
  rw [CreateTransaction_payment_nonpositive st req newId now account ha hop hfind hnp]
  refine ⟨rfl, rfl, rfl, ?_, rfl⟩
  show accountBalance st req.accountId = some account.balance
  unfold accountBalance
  rw [hfind]
  rfl

/-- Witness for C5 at a concrete PAYMENT of −5 on balance 10000. -/
theorem claim5_witness :
    ("acct-1" ≠ "" ∧
      ({ accountId := "acct-1", operationType := "PAYMENT", amount := -5,
         description := "w" } : CreateTransactionRequest).operationType = "PAYMENT" ∧
      findAccount witnessState "acct-1" = some witnessAccount ∧ (-5 : Int) ≤ 0) ∧
    ((CreateTransaction witnessState
        { accountId := "acct-1", operationType := "PAYMENT", amount := -5,
          description := "w" } "tx-6" 9).1.error = "payment amount must be positive" ∧
     (CreateTransaction witnessState
        { accountId := "acct-1", operationType := "PAYMENT", amount := -5,
          description := "w" } "tx-6" 9).1.transaction = none ∧
     (CreateTransaction witnessState
        { accountId := "acct-1", operationType := "PAYMENT", amount := -5,
          description := "w" } "tx-6" 9).2 = witnessState ∧
     accountBalance (CreateTransaction witnessState
        { accountId := "acct-1", operationType := "PAYMENT", amount := -5,
          description := "w" } "tx-6" 9).2 "acct-1" = some witnessAccount.balance ∧
     (CreateTransaction witnessState
        { accountId := "acct-1", operationType := "PAYMENT", amount := -5,
          description := "w" } "tx-6" 9).2.transactions = witnessState.transactions) :=
  ⟨⟨by decide, by decide, by decide, by decide⟩,
   claim5_payment_nonpositive_rejected witnessState
     { accountId := "acct-1", operationType := "PAYMENT", amount := -5, description := "w" }
     "tx-6" 9 witnessAccount (by decide) (by decide) (by decide) (by decide)⟩

theorem createdAtDesc_trans (a b c : Transaction)
    (h1 : createdAtDesc a b) (h2 : createdAtDesc b c) : createdAtDesc a c := by
  simp only [createdAtDesc, decide_eq_true_eq] at *
  exact le_trans h2 h1

theorem createdAtDesc_total (a b : Transaction) :
    createdAtDesc a b || createdAtDesc b a := by
  simp only [createdAtDesc, Bool.or_eq_true, decide_eq_true_eq]
  exact le_total b.createdAt a.createdAt

/-- The page query's result is sorted by `created_at` descending. -/
theorem transactionsByAccountDesc_sorted (st : DBState) (accountId : String) :
    List.Pairwise (fun a b => b.createdAt ≤ a.createdAt)
      (transactionsByAccountDesc st accountId) := by
  have h := List.sorted_mergeSort createdAtDesc_trans createdAtDesc_total
    (st.transactions.filter (fun t => t.accountId == accountId))
  exact h.imp (fun hab => by simpa [createdAtDesc] using hab)

/-- C6: for every `GetTransactionHistory` call with a non-empty account id,
the effective limit is 50 whenever the requested limit is ≤ 0 or > 100 and the
requested limit otherwise, the effective offset is 0 whenever the requested
offset is negative, the returned page is the descending-by-`created_at` slice
of the account's rows at that offset, at most the effective limit of rows is
returned in descending `created_at` order, and the returned total is the full
count of the account's transactions irrespective of limit and offset. -/
theorem claim6_history_clamps_orders_and_counts
    (st : DBState) (req : GetTransactionHistoryRequest) (ha : req.accountId ≠ "") :
    (GetTransactionHistory st req).error = "" ∧
    (GetTransactionHistory st req).transactions
      = ((transactionsByAccountDesc st req.accountId).drop
          (if req.offset < 0 then (0 : Int) else req.offset).toNat).take
          (if req.limit ≤ 0 ∨ 100 < req.limit then (50 : Int) else req.limit).toNat ∧
    (GetTransactionHistory st req).transactions.length
      ≤ (if req.limit ≤ 0 ∨ 100 < req.limit then (50 : Int) else req.limit).toNat ∧
    List.Pairwise (fun a b => b.createdAt ≤ a.createdAt)
      (GetTransactionHistory st req).transactions ∧
    (GetTransactionHistory st req).total
      = ((st.transactions.filter (fun t => t.accountId == req.accountId)).length : Int) := by
  unfold GetTransactionHistory
  rw [if_neg ha]
  refine ⟨rfl, rfl, ?_, ?_, rfl⟩
  · exact List.length_take_le _ _
  · exact ((transactionsByAccountDesc_sorted st req.accountId).sublist
      ((List.take_sublist _ _).trans (List.drop_sublist _ _)))

/-- Witness for C6 at a concrete call with limit 150 and offset −1. -/
theorem claim6_witness :
    ("acct-1" ≠ "") ∧
    ((GetTransactionHistory witnessState
        { accountId := "acct-1", limit := 150, offset := -1 }).error = "" ∧
     (GetTransactionHistory witnessState
        { accountId := "acct-1", limit := 150, offset := -1 }).transactions
       = ((transactionsByAccountDesc witnessState "acct-1").drop
           (if (-1 : Int) < 0 then (0 : Int) else -1).toNat).take
           (if (150 : Int) ≤ 0 ∨ 100 < (150 : Int) then (50 : Int) else 150).toNat ∧
     (GetTransactionHistory witnessState
        { accountId := "acct-1", limit := 150, offset := -1 }).transactions.length
       ≤ (if (150 : Int) ≤ 0 ∨ 100 < (150 : Int) then (50 : Int) else 150).toNat ∧
     List.Pairwise (fun a b => b.createdAt ≤ a.createdAt)
       (GetTransactionHistory witnessState
         { accountId := "acct-1", limit := 150, offset := -1 }).transactions ∧
     (GetTransactionHistory witnessState
        { accountId := "acct-1", limit := 150, offset := -1 }).total
       = ((witnessState.transactions.filter
           (fun t => t.accountId == "acct-1")).length : Int)) :=
  ⟨by decide,
   claim6_history_clamps_orders_and_counts witnessState
     { accountId := "acct-1", limit := 150, offset := -1 } (by decide)⟩

/-- C7: `GetTransactionHistory` fails with the validation error exactly when
the account id is empty; under referential integrity (every transaction row
references an existing account), a non-empty account id matching no account
yields no error, an empty page and total 0. -/
theorem claim7_history_empty_id_and_unknown_account
    (st : DBState) (req : GetTransactionHistoryRequest)
    (hwf : ∀ t ∈ st.transactions, ∃ a ∈ st.accounts, a.id = t.accountId) :
    ((GetTransactionHistory st req).error = "account_id required" ↔ req.accountId = "") ∧
    (req.accountId ≠ "" → (∀ a ∈ st.accounts, a.id ≠ req.accountId) →
      (GetTransactionHistory st req).error = "" ∧
      (GetTransactionHistory st req).transactions = [] ∧
      (GetTransactionHistory st req).total = 0) := by
  by_cases hid : req.accountId = ""
  · constructor
    · unfold GetTransactionHistory
      rw [if_pos hid]
      exact ⟨fun _ => hid, fun _ => rfl⟩
    · intro hne
      exact absurd hid hne
  · have hfilter : st.transactions.filter (fun t => t.accountId == req.accountId) = [] →
      (GetTransactionHistory st req).error = "" ∧
      (GetTransactionHistory st req).transactions = [] ∧
      (GetTransactionHistory st req).total = 0 := by
      intro hf
      unfold GetTransactionHistory
      rw [if_neg hid]
      refine ⟨rfl, ?_, ?_⟩
      · show (((transactionsByAccountDesc st req.accountId).drop _).take _) = []
        unfold transactionsByAccountDesc
        rw [hf]
        simp
      · show ((st.transactions.filter (fun t => t.accountId == req.accountId)).length : Int) = 0
        rw [hf]
        rfl
    constructor
    · unfold GetTransactionHistory
      rw [if_neg hid]
      constructor
      · intro h
        exact absurd h (by simp)
      · intro h
        exact absurd h hid
    · intro _ hnone
      apply hfilter
      rw [List.filter_eq_nil_iff]
      intro t ht hbeq
      obtain ⟨a, hmem, haid⟩ := hwf t ht
      rw [beq_iff_eq] at hbeq
      exact hnone a hmem (haid.trans hbeq)

/-- Witness for C7: a store satisfying referential integrity and a query for
an account id that exists nowhere. -/
theorem claim7_witness :
    (∀ t ∈ witnessState.transactions, ∃ a ∈ witnessState.accounts, a.id = t.accountId) ∧
    (((GetTransactionHistory witnessState
        { accountId := "ghost", limit := 10, offset := 0 }).error = "account_id required"
      ↔ ("ghost" : String) = "") ∧
     (("ghost" : String) ≠ "" →
      (∀ a ∈ witnessState.accounts, a.id ≠ "ghost") →
      (GetTransactionHistory witnessState
        { accountId := "ghost", limit := 10, offset := 0 }).error = "" ∧
      (GetTransactionHistory witnessState
        { accountId := "ghost", limit := 10, offset := 0 }).transactions = [] ∧
      (GetTransactionHistory witnessState
        { accountId := "ghost", limit := 10, offset := 0 }).total = 0)) :=
  ⟨by decide,
   claim7_history_empty_id_and_unknown_account witnessState
     { accountId := "ghost", limit := 10, offset := 0 } (by decide)⟩

/-- C8: `ProcessPayment` returns the same transaction, the same error and the
same post-state as `CreateTransaction` with operation type forced to PAYMENT —
a pure wrapper adding no behavior of its own. -/
theorem claim8_processPayment_delegates
    (st : DBState) (req : ProcessPaymentRequest) (newId : String) (now : Int) :
    (ProcessPayment st req newId now).1.transaction
      = (CreateTransaction st
          { accountId := req.accountId, operationType := "PAYMENT",
            amount := req.amount, description := req.description } newId now).1.transaction ∧
    (ProcessPayment st req newId now).1.error
      = (CreateTransaction st
          { accountId := req.accountId, operationType := "PAYMENT",
            amount := req.amount, description := req.description } newId now).1.error ∧
    (ProcessPayment st req newId now).2
      = (CreateTransaction st
          { accountId := req.accountId, operationType := "PAYMENT",
            amount := req.amount, description := req.description } newId now).2 :=
  ⟨rfl, rfl, rfl⟩

/-- C9 as stated is refuted: on a store whose only account is `acct-1`,
updating the missing id `ghost` affects zero rows (the store is unchanged) and
a `GetAccount` lookup of `ghost` does return `not found` — but the
`UpdateAccount` response handed to the caller carries an empty error and no
account, so NotFound is not surfaced to the caller. -/
theorem claim9_counterexample :
    (UpdateAccount witnessState
      { id := "ghost", documentNumber := "9", accountType := "SAVINGS" } 7).2
      = witnessState ∧
    GetAccount (UpdateAccount witnessState
      { id := "ghost", documentNumber := "9", accountType := "SAVINGS" } 7).2
      { id := "ghost" } = { account := none, error := "not found" } ∧
    (UpdateAccount witnessState
      { id := "ghost", documentNumber := "9", accountType := "SAVINGS" } 7).1.error = "" ∧
    (UpdateAccount witnessState
      { id := "ghost", documentNumber := "9", accountType := "SAVINGS" } 7).1.account
      = none := by decide

/-- C9 (amended): when `UpdateAccount` is called with a non-empty id matching
no existing account, the update statement affects zero rows (the store is
unchanged) and the subsequent `GetAccount` lookup returns NotFound internally —
but `UpdateAccount` does not propagate that error: the caller receives a
response with no account and an empty error field. -/
theorem claim9_update_missing_account_swallows_not_found
    (st : DBState) (req : UpdateAccountRequest) (now : Int)
    (hid : req.id ≠ "") (hnone : ∀ a ∈ st.accounts, a.id ≠ req.id) :
    (UpdateAccount st req now).2 = st ∧
    GetAccount (UpdateAccount st req now).2 { id := req.id }
      = { account := none, error := "not found" } ∧
    (UpdateAccount st req now).1 = { account := none, error := "" } := by
  have hmapAux : ∀ l : List Account, (∀ a ∈ l, a.id ≠ req.id) →
      l.map (applyAccountUpdate req now) = l := by
    intro l
    induction l with
    | nil => intro _; rfl
    | cons x xs ih =>
      intro hl
      simp only [List.map_cons]
      rw [ih (fun a hm => hl a (List.mem_cons_of_mem x hm))]
      have hx : applyAccountUpdate req now x = x := by
        unfold applyAccountUpdate
        rw [if_neg (hl x (List.mem_cons_self x xs))]
      rw [hx]
  have hmap : st.accounts.map (applyAccountUpdate req now) = st.accounts :=
    hmapAux st.accounts hnone
  have hfind : findAccount st req.id = none := by
    unfold findAccount
    rw [List.find?_eq_none]
    intro a hmem
    simpa using hnone a hmem
  have hst2 : (UpdateAccount st req now).2 = st := by
    unfold UpdateAccount
    rw [if_neg hid]
    show DBState.mk (st.accounts.map (applyAccountUpdate req now)) st.transactions = st
    rw [hmap]
  have hget : GetAccount st { id := req.id } = { account := none, error := "not found" } := by
    unfold GetAccount
    rw [if_neg hid, hfind]
  refine ⟨hst2, by rw [hst2, hget], ?_⟩
  unfold UpdateAccount
  rw [if_neg hid]
  show ({ account := (GetAccount (DBState.mk (st.accounts.map (applyAccountUpdate req now))
    st.transactions) { id := req.id }).account, error := "" } : UpdateAccountResponse) = _
  rw [hmap]
  show ({ account := (GetAccount st { id := req.id }).account, error := "" }
    : UpdateAccountResponse) = _
  rw [hget]

/-- Witness for C9 (amended) at a store with one account and a missing id. -/
theorem claim9_witness :
    (("ghost" : String) ≠ "" ∧ (∀ a ∈ witnessState.accounts, a.id ≠ "ghost")) ∧
    ((UpdateAccount witnessState
        { id := "ghost", documentNumber := "", accountType := "" } 7).2 = witnessState ∧
     GetAccount (UpdateAccount witnessState
        { id := "ghost", documentNumber := "", accountType := "" } 7).2 { id := "ghost" }
       = { account := none, error := "not found" } ∧
     (UpdateAccount witnessState
        { id := "ghost", documentNumber := "", accountType := "" } 7).1
       = { account := none, error := "" }) :=
  ⟨⟨by decide, by decide⟩,
   claim9_update_missing_account_swallows_not_found witnessState
     { id := "ghost", documentNumber := "", accountType := "" } 7 (by decide) (by decide)⟩

/-- C10: a debit of exactly 0 on an existing account with non-negative balance
is accepted, not rejected: the balance check passes, the balance value is
unchanged, and a COMPLETED row with amount 0 is appended — whereas the same
request with operation type PAYMENT is rejected with
`payment amount must be positive`. -/
theorem claim10_zero_debit_accepted_zero_payment_rejected
    (st : DBState) (req : CreateTransactionRequest) (newId : String) (now : Int)
    (account : Account)
    (ha : req.accountId ≠ "") (hop : debitOperation req.operationType)
    (hfind : findAccount st req.accountId = some account)
    (hz : req.amount = 0) (hnn : 0 ≤ account.balance) :
    (CreateTransaction st req newId now).1.error = "" ∧
    accountBalance (CreateTransaction st req newId now).2 req.accountId
      = some account.balance ∧
    (∃ tx : Transaction,
      (CreateTransaction st req newId now).1.transaction = some tx ∧
      (CreateTransaction st req newId now).2.transactions = st.transactions ++ [tx] ∧
      tx.amount = 0 ∧ tx.status = "COMPLETED") ∧
    (CreateTransaction st { req with operationType := "PAYMENT" } newId now).1.error
      = "payment amount must be positive" := by
  have hnorm : normalizeDebit req.amount = 0 := by
    rw [hz]
    rfl
  have hsuff : 0 ≤ account.balance + normalizeDebit req.amount := by
    rw [hnorm, add_zero]
    exact hnn
  have hp := CreateTransaction_payment_nonpositive st { req with operationType := "PAYMENT" }
    newId now account ha rfl hfind (le_of_eq hz)
  rw [CreateTransaction_debit_success st req newId now account ha hop hfind hsuff]
  refine ⟨rfl, ?_, ⟨_, rfl, rfl, hnorm, rfl⟩, ?_⟩
  · show accountBalance
      (insertTransaction (updateBalance st req.accountId (normalizeDebit req.amount) now) _)
      req.accountId = _
    rw [accountBalance_insertTransaction,
      accountBalance_updateBalance st req.accountId _ now account hfind, hnorm, add_zero]
  · rw [hp]

/-- Witness for C10 at a concrete CASH_PURCHASE of 0 on balance 10000. -/
theorem claim10_witness :
    ("acct-1" ≠ "" ∧ debitOperation "CASH_PURCHASE" ∧
      findAccount witnessState "acct-1" = some witnessAccount ∧
      witnessZeroDebitReq.amount = 0 ∧ 0 ≤ witnessAccount.balance) ∧
    ((CreateTransaction witnessState witnessZeroDebitReq "tx-7" 9).1.error = "" ∧
     accountBalance (CreateTransaction witnessState witnessZeroDebitReq "tx-7" 9).2 "acct-1"
       = some witnessAccount.balance ∧
     (∃ tx : Transaction,
       (CreateTransaction witnessState witnessZeroDebitReq "tx-7" 9).1.transaction = some tx ∧
       (CreateTransaction witnessState witnessZeroDebitReq "tx-7" 9).2.transactions
         = witnessState.transactions ++ [tx] ∧
       tx.amount = 0 ∧ tx.status = "COMPLETED") ∧
     (CreateTransaction witnessState
        { witnessZeroDebitReq with operationType := "PAYMENT" } "tx-7" 9).1.error
       = "payment amount must be positive") :=
  ⟨⟨by decide, Or.inl rfl, by decide, by decide, by decide⟩,
   claim10_zero_debit_accepted_zero_payment_rejected witnessState witnessZeroDebitReq
     "tx-7" 9 witnessAccount (by decide) (Or.inl rfl) (by decide) (by decide) (by decide)⟩

end Pismo
